import Mathlib

/-
Verification of the `themed_print` package (files `main.py` and `config.py`)
against its natural-language specification.

The development shallowly embeds the Python code: Python values that matter to
the claims become the inductive type `PyVal`; the shared `rich` console object
becomes an explicit `Console` state threaded through the functions; a Python
exception path becomes the `Except` error branch, carrying the console state at
the point the exception propagates.  The parts of the `rich` library the code
relies on (render-hook push/pop, `Console.status` as a context manager,
`markup.escape`, the markup parser, and `RegexHighlighter` / `re.finditer`
span production) are embedded faithfully from the published behaviour of that
library, since the repository delegates to them.
-/

namespace ThemedPrint

/-- A Python value, as far as the claims need to distinguish values.  The
booleans are singleton objects in Python, so identity with `False` is exactly
the `pyBoolFalse` constructor.  `pyObj` carries the attribute dictionary of an
instance object. -/
inductive PyVal where
  | pyBoolFalse
  | pyBoolTrue
  | pyNone
  | pyInt (n : Int)
  | pyStr (s : String)
  | pyObj (attrs : List (String × PyVal))

/-- Python three-argument `getattr`: look the name up in the attribute
dictionary of an object; every other value has no attributes, so the default
is returned. -/
def getattr (v : PyVal) (name : String) (dflt : PyVal) : PyVal :=
  match v with
  | .pyObj attrs => (attrs.lookup name).getD dflt
  | _ => dflt

/-- The Python test `v is False`: identity with the `False` singleton.  It is
true for the boolean `False` only; falsy values such as `0`, `None` and the
empty string are different objects. -/
def pyIsFalse (v : PyVal) : Bool :=
  match v with
  | .pyBoolFalse => true
  | _ => false

/- ### rich.markup.escape and the markup parser

`markup.escape` substitutes the regex `(\\*)(\[[a-z#/@][^[]*?])` with the
backslashes doubled and a backslash inserted before the tag, then doubles a
single trailing backslash.  The markup parser scans for
`(\\*)\[([a-z#/@][^[]*?)]`; a tag preceded by an odd number of backslashes is
emitted as literal text, otherwise it becomes a style tag. -/

/-- Number of leading backslash characters. -/
def bsCount : List Char → Nat
  | '\\' :: rest => bsCount rest + 1
  | _ => 0

/-- Scan the lazy tail `[^[]*?]` of a markup tag: the body runs up to the
first closing bracket, and fails if an opening bracket appears first.
Returns the body and the remainder after the closing bracket. -/
def scanToClose : List Char → Option (List Char × List Char)
  | [] => none
  | ']' :: rest => some ([], rest)
  | '[' :: _ => none
  | c :: rest =>
    match scanToClose rest with
    | some (body, r) => some (c :: body, r)
    | none => none

/-- Match `\[[a-z#/@][^[]*?]` at the head of the input.  Returns the inner
text of the tag (without the brackets) and the remainder after it. -/
def matchTag : List Char → Option (List Char × List Char)
  | '[' :: c :: rest =>
    if ('a' ≤ c && c ≤ 'z') || c = '#' || c = '/' || c = '@' then
      match scanToClose rest with
      | some (body, r) => some (c :: body, r)
      | none => none
    else none
  | _ => none

/-- Core of `rich.markup.escape`: at each position, a (possibly empty) run of
backslashes followed by a tag is replaced by the doubled backslashes, one more
backslash, and the tag text; other characters pass through.  Fuelled by the
input length (each step consumes at least one character). -/
def escapeCore : Nat → List Char → List Char
  | 0, _ => []
  | _, [] => []
  | fuel + 1, c :: rest =>
    let n := bsCount (c :: rest)
    match matchTag ((c :: rest).drop n) with
    | some (inner, after) =>
      List.replicate (2 * n) '\\' ++ '\\' :: '[' :: (inner ++ ']' :: escapeCore fuel after)
    | none => c :: escapeCore fuel rest

/-- Double a single trailing backslash, as `rich.markup.escape` does after the
substitution. -/
def fixTrailingBackslash (cs : List Char) : List Char :=
  match cs.reverse with
  | '\\' :: '\\' :: _ => cs
  | '\\' :: _ => cs ++ ['\\']
  | _ => cs

/-- `rich.markup.escape` on a string. -/
def markup_escape (s : String) : String :=
  String.mk (fixTrailingBackslash (escapeCore s.toList.length s.toList))

/-- A piece produced by the markup parser: literal text, or a style tag with
its inner text. -/
inductive MarkupPiece where
  | plain (s : List Char)
  | tag (inner : List Char)
deriving DecidableEq

/-- Core of the rich markup parser: a tag preceded by `n` backslashes yields
`n / 2` literal backslashes and, when `n` is odd, the bracketed text as a
literal; with `n` even the tag takes effect.  Fuelled by the input length. -/
def parseCore : Nat → List Char → List MarkupPiece
  | 0, _ => []
  | _, [] => []
  | fuel + 1, c :: rest =>
    let n := bsCount (c :: rest)
    match matchTag ((c :: rest).drop n) with
    | some (inner, after) =>
      (if n / 2 > 0 then [MarkupPiece.plain (List.replicate (n / 2) '\\')] else []) ++
      (if n % 2 = 1 then [MarkupPiece.plain ('[' :: inner ++ [']'])]
       else [MarkupPiece.tag inner]) ++
      parseCore fuel after
    | none => MarkupPiece.plain [c] :: parseCore fuel rest

/-- Parse a markup string into pieces. -/
def parse_markup (s : String) : List MarkupPiece :=
  parseCore s.toList.length s.toList

/-- Concatenation of the literal text pieces of a parse. -/
def markup_plain (ps : List MarkupPiece) : List Char :=
  ps.flatMap fun p =>
    match p with
    | .plain s => s
    | .tag _ => []

/-- Whether a parse contains a style tag. -/
def markup_has_tag (ps : List MarkupPiece) : Bool :=
  ps.any fun p =>
    match p with
    | .tag _ => true
    | .plain _ => false

/- ### The console state and the `print` function (main.py lines 96-127) -/

/-- The data of a `_PrettyIndentHook` instance: the constructor arguments of
the render hook that `print` pushes (main.py lines 20-48). -/
structure PrettyIndentHook where
  indent_size : Nat
  indent_guides : Bool
deriving DecidableEq

/-- The process-wide `rich` console, reduced to the state the claims are
about: its render-hook stack, and the record of the value lists handed to
`Console.print`. -/
structure Console where
  render_hooks : List PrettyIndentHook
  printed : List (List PyVal)

/-- The error raised by the underlying `Console.print`, paired on the error
branch with the console state at the moment the exception propagates. -/
inductive PrintError where
  | consoleError
deriving DecidableEq

/-- `Console.push_render_hook`: appends the hook to the stack. -/
def push_render_hook (h : PrettyIndentHook) (c : Console) : Console :=
  { c with render_hooks := c.render_hooks ++ [h] }

/-- `Console.pop_render_hook`: removes the most recently pushed hook. -/
def pop_render_hook (c : Console) : Console :=
  { c with render_hooks := c.render_hooks.dropLast }

/-- The underlying `Console.print` call.  Whether it raises is an input (a
broken stream, a bad renderable); it does not touch the render-hook stack
either way. -/
def console_print (raises : Bool) (values : List PyVal) (c : Console) :
    Except (PrintError × Console) Console :=
  if raises then .error (.consoleError, c)
  else .ok { c with printed := c.printed ++ [values] }

/-- The list comprehension of main.py line 120: plain strings are
markup-escaped, every other value is passed through unchanged. -/
def to_print (content : List PyVal) : List PyVal :=
  content.map fun cnt =>
    match cnt with
    | .pyStr s => .pyStr (markup_escape s)
    | cnt => cnt

/-- `themed_print.print` (main.py lines 96-127): escape the string arguments,
push a `_PrettyIndentHook` built from the `indent` and `show_guideline`
options, call `CONSOLE.print`, then pop the hook.  The source has no
`try`/`finally`, so when `CONSOLE.print` raises, the exception propagates and
the pop on line 127 is never executed. -/
def print (indent : Nat) (show_guideline : Bool) (content : List PyVal)
    (console_raises : Bool) (c : Console) : Except (PrintError × Console) Console :=
  let values := to_print content
  let hook : PrettyIndentHook := ⟨indent, show_guideline⟩
  let c1 := push_render_hook hook c
  match console_print console_raises values c1 with
  | .error ec => .error ec
  | .ok c2 => .ok (pop_render_hook c2)

/-- The render-hook stack of the console after a call, on the normal and on
the exceptional branch alike. -/
def result_hooks : Except (PrintError × Console) Console → List PrettyIndentHook
  | .ok c => c.render_hooks
  | .error (_, c) => c.render_hooks

/- ### The status decorator (main.py lines 130-194) -/

/-- The display actions the `run_as_status` wrapper performs on the console:
entering the `CONSOLE.status` context (spinner shown), leaving it (spinner
removed), and printing the exit message. -/
inductive StatusEv where
  | statusEnter
  | statusExit
  | exitMessagePrinted
deriving DecidableEq

/-- The Python `with CONSOLE.status(...)` block around the wrapped call: the
context is entered, the body runs, and the context is exited again whether or
not the body raised; a raising body re-raises after the exit. -/
def withStatusBlock {E α : Type} (body : Except E α) : List StatusEv × Except E α :=
  ([.statusEnter, .statusExit], body)

/-- `run_as_status` (main.py lines 172-190), the wrapper produced by
`show_status`: when the first positional argument carries a `_show_status`
attribute that is identically `False`, the function simply runs; otherwise the
function runs inside the status context and, after a normal return only, the
exit message is printed.  The wrapped function is a value of
`List PyVal → Except E α`: its result on the given arguments, with the error
branch for a raised exception. -/
def run_as_status {E α : Type} (func : List PyVal → Except E α) (args : List PyVal) :
    List StatusEv × Except E α :=
  let should_log : PyVal :=
    match args with
    | [] => .pyBoolTrue
    | inst :: _ => getattr inst "_show_status" .pyBoolTrue
  if pyIsFalse should_log then
    ([], func args)
  else
    let r := withStatusBlock (func args)
    match r.2 with
    | .ok a => (r.1 ++ [.exitMessagePrinted], .ok a)
    | .error e => (r.1, .error e)

/-- The condition under which `run_as_status` skips the status display: there
is a first positional argument and its `_show_status` attribute is identically
`False`. -/
def suppress_condition (args : List PyVal) : Bool :=
  match args with
  | [] => false
  | inst :: _ => pyIsFalse (getattr inst "_show_status" .pyBoolTrue)

/- ### A backtracking regex engine with Python `re` semantics

The highlighter rules of `DTypeRegexHighlighter` (main.py lines 55-72) are
Python regexes.  They are embedded as syntax trees over the constructs they
actually use, and matched with the leftmost, prioritized-alternation,
greedy-with-backtracking semantics of `re`.  Every starred subexpression in
the rules is a character class, so the quantifiers here take a class directly
and each iteration consumes one character. -/

/-- The capture list of a match attempt: named group, start, end. -/
abbrev Caps := List (String × Nat × Nat)

/-- A match continuation: given the position and captures after a
subexpression, the overall result of the rest of the pattern. -/
abbrev MatchCont := Nat → Caps → Option (Nat × Caps)

/-- Regex syntax: the constructs used by the highlighter rules.  `cls` is a
single character from a class, `opt` a greedy `?`, `starG`/`starL` a
greedy/lazy `*` over a class, `grp` a named capture group, `nlb` a negative
lookbehind on one character, `la` a lookahead on one character, and `wordb`
the boundary `\b`. -/
inductive RE where
  | eps
  | cls (f : Char → Bool)
  | seq (a b : RE)
  | alt (a b : RE)
  | opt (a : RE)
  | starG (f : Char → Bool)
  | starL (f : Char → Bool)
  | grp (name : String) (a : RE)
  | nlb (f : Char → Bool)
  | la (f : Char → Bool)
  | wordb

/-- Length of the maximal run of class characters starting at a position. -/
def runLen (s : List Char) (f : Char → Bool) (i : Nat) : Nat :=
  ((s.drop i).takeWhile f).length

/-- Greedy choice of how many class characters to consume: the longest
extension is tried first, as `re` does for `*`. -/
def tryDown (k : MatchCont) (cp : Caps) (i : Nat) : Nat → Option (Nat × Caps)
  | 0 => k i cp
  | m + 1 => (k (i + m + 1) cp) <|> tryDown k cp i m

/-- Lazy choice of how many class characters to consume: the shortest
extension is tried first, as `re` does for `*?`. -/
def tryUp (k : MatchCont) (cp : Caps) (i : Nat) : Nat → Option (Nat × Caps)
  | 0 => k i cp
  | m + 1 => (k i cp) <|> tryUp k cp (i + 1) m

/-- Python `\w` on the ASCII inputs the claims use: letters, digits and the
underscore. -/
def isWordChar (c : Char) : Bool := c.isAlphanum || c = '_'

/-- Python `\s` on ASCII: space, tab, newline, carriage return, vertical tab
and form feed. -/
def isSpaceChar (c : Char) : Bool :=
  c = ' ' || c = '\t' || c = '\n' || c = '\r' || c = '\x0b' || c = '\x0c'

/-- Whether the character at a position exists and is a word character. -/
def wordAt (s : List Char) (i : Nat) : Bool :=
  match s.get? i with
  | some c => isWordChar c
  | none => false

/-- The backtracking matcher.  `mtch s re i cp k` tries `re` at position `i`
of `s` with captures `cp`, and calls the continuation `k` for each candidate
end position in the priority order of `re`; the first success wins. -/
def mtch (s : List Char) : RE → Nat → Caps → MatchCont → Option (Nat × Caps)
  | .eps, i, cp, k => k i cp
  | .cls f, i, cp, k =>
    match s.get? i with
    | some c => if f c then k (i + 1) cp else none
    | none => none
  | .seq a b, i, cp, k => mtch s a i cp fun j cp2 => mtch s b j cp2 k
  | .alt a b, i, cp, k => (mtch s a i cp k) <|> (mtch s b i cp k)
  | .opt a, i, cp, k => (mtch s a i cp k) <|> k i cp
  | .starG f, i, cp, k => tryDown k cp i (runLen s f i)
  | .starL f, i, cp, k => tryUp k cp i (runLen s f i)
  | .grp nm a, i, cp, k => mtch s a i cp fun j cp2 => k j ((nm, i, j) :: cp2)
  | .nlb f, i, cp, k =>
    if i = 0 then k i cp
    else
      match s.get? (i - 1) with
      | some c => if f c then none else k i cp
      | none => k i cp
  | .la f, i, cp, k =>
    match s.get? i with
    | some c => if f c then k i cp else none
    | none => none
  | .wordb, i, cp, k =>
    let prev := if i = 0 then false else wordAt s (i - 1)
    if prev != wordAt s i then k i cp else none

/-- Attempt a match of the whole pattern at one position. -/
def attemptAt (s : List Char) (re : RE) (i : Nat) : Option (Nat × Caps) :=
  mtch s re i [] fun j cp => some (j, cp)

/-- `re.finditer`: scan positions left to right; after a match resume at its
end, or one further when the match was empty.  Returns the capture lists of
the successive matches.  Fuelled by `length + 2`, which the strictly
increasing position makes sufficient. -/
def finditerAux (s : List Char) (re : RE) : Nat → Nat → List Caps
  | 0, _ => []
  | fuel + 1, i =>
    if s.length < i then []
    else
      match attemptAt s re i with
      | some (e, cp) => cp :: finditerAux s re fuel (if i < e then e else i + 1)
      | none => finditerAux s re fuel (i + 1)

/-- All capture lists of a pattern over a line. -/
def finditer (re : RE) (s : List Char) : List Caps :=
  finditerAux s re (s.length + 2) 0

/-- The spans `Text.highlight_regex` appends for one pattern: for every match,
every named group that captured a non-empty span yields a span labelled with
the group name, in the order the groups appear in the pattern. -/
def patternSpans (re : RE) (s : List Char) : List (String × Nat × Nat) :=
  (finditer re s).flatMap fun cp => cp.reverse.filter fun g => g.2.1 < g.2.2

/-- A sequence of literal characters. -/
def lit (cs : List Char) : RE :=
  cs.foldr (fun c r => RE.seq (RE.cls fun x => x = c) r) RE.eps

/-- Greedy `+` over a class: one character, then a greedy star. -/
def rePlusG (f : Char → Bool) : RE := .seq (.cls f) (.starG f)

/-- Lazy `+?` over a class: one character, then a lazy star. -/
def rePlusL (f : Char → Bool) : RE := .seq (.cls f) (.starL f)

/- ### The highlighter rules (main.py lines 55-72)

Each definition below transcribes one entry of
`DTypeRegexHighlighter.highlights`, in source order. -/

/-- The class `[A-Z_]`. -/
def isUpperScore (c : Char) : Bool := ('A' ≤ c && c ≤ 'Z') || c = '_'

/-- The class `[A-z]`: the full ASCII range from `A` to `z`, which also
contains the bracket characters, backslash, caret, underscore and backtick. -/
def isAtoZ (c : Char) : Bool := 'A' ≤ c && c ≤ 'z'

/-- Python `.` without DOTALL: any character but a newline. -/
def reDot (c : Char) : Bool := !(c = '\n')

/-- The class `[0-9a-fA-F]`. -/
def isHexChar (c : Char) : Bool :=
  c.isDigit || ('a' ≤ c && c ≤ 'f') || ('A' ≤ c && c ≤ 'F')

/-- Rule 1, `(?P<CONSTANT>(\s[A-Z_]*(?=[\s,])))`: a whitespace character, a
run of capitals or underscores, and a lookahead for whitespace or a comma.
The captured span includes the leading whitespace character. -/
def constant_re : RE :=
  .grp "CONSTANT"
    (.seq (.cls isSpaceChar)
      (.seq (.starG isUpperScore) (.la fun c => isSpaceChar c || c = ',')))

/-- One string-literal alternative `b?DELIM.*?(?<!\\)DELIM` of rule 2. -/
def strAlt (delim : List Char) : RE :=
  .seq (.opt (.cls fun c => c = 'b'))
    (.seq (lit delim)
      (.seq (.starL reDot)
        (.seq (.nlb fun c => c = '\\') (lit delim))))

/-- Rule 2, the STR pattern: a negative lookbehind `(?<![\\\w])` and the four
quote alternatives in source order (triple single, single, triple double,
double). -/
def str_re : RE :=
  .seq (.nlb fun c => c = '\\' || isWordChar c)
    (.grp "STR"
      (.alt (strAlt ['\x27', '\x27', '\x27'])
        (.alt (strAlt ['\x27'])
          (.alt (strAlt ['"', '"', '"']) (strAlt ['"'])))))

/-- First alternative of rule 3:
`(?<!\w)\-?[0-9]+\.?[0-9]*(e[-+]?\d+?)?\b`. -/
def numberDecimal : RE :=
  .seq (.nlb isWordChar)
    (.seq (.opt (.cls fun c => c = '-'))
      (.seq (rePlusG Char.isDigit)
        (.seq (.opt (.cls fun c => c = '.'))
          (.seq (.starG Char.isDigit)
            (.seq
              (.opt (.seq (.cls fun c => c = 'e')
                (.seq (.opt (.cls fun c => c = '-' || c = '+'))
                  (rePlusL Char.isDigit))))
              .wordb)))))

/-- Rule 3, the NUMBER pattern: the decimal alternative or
`0x[0-9a-fA-F]*`. -/
def number_re : RE :=
  .grp "NUMBER" (.alt numberDecimal (.seq (lit "0x".toList) (.starG isHexChar)))

/-- Rule 4, `(?P<TRUE>True)`. -/
def true_re : RE := .grp "TRUE" (lit "True".toList)

/-- Rule 5, `(?P<FALSE>False)`. -/
def false_re : RE := .grp "FALSE" (lit "False".toList)

/-- Rule 6, `(?P<NONE>None)`. -/
def none_re : RE := .grp "NONE" (lit "None".toList)

/-- Rule 7, `(?P<ENUM>[A-z]*\.[A-Z_]*(?=:))`. -/
def enum_re : RE :=
  .grp "ENUM"
    (.seq (.starG isAtoZ)
      (.seq (.cls fun c => c = '.')
        (.seq (.starG isUpperScore) (.la fun c => c = ':'))))

/-- Rule 8, `(?P<DATACLASS_NAME>[A-z]*(?=\())`. -/
def dataclass_re : RE :=
  .grp "DATACLASS_NAME" (.seq (.starG isAtoZ) (.la fun c => c = '('))

/-- Rule 9, `(?P<DICT_KEY>'.*'): `: a greedy single-quoted span captured, the
colon and space outside the group. -/
def dict_key_re : RE :=
  .seq
    (.grp "DICT_KEY"
      (.seq (.cls fun c => c = '\x27')
        (.seq (.starG reDot) (.cls fun c => c = '\x27'))))
    (lit ": ".toList)

/-- Rule 10, `(?P<PUNCTUATION>[^\w\s\d])`: one character that is neither a
word character nor whitespace (`\d` is contained in `\w`). -/
def punctuation_re : RE :=
  .grp "PUNCTUATION" (.cls fun c => !(isWordChar c) && !(isSpaceChar c))

/-- Rule 12, `<function (?P<FUNCTION_NAME>[^\s]+) at (?P<HEX_ADDRESS>[a-zA-Z0-9]+)>`. -/
def function_re : RE :=
  .seq (lit "<function ".toList)
    (.seq (.grp "FUNCTION_NAME" (rePlusG fun c => !(isSpaceChar c)))
      (.seq (lit " at ".toList)
        (.seq (.grp "HEX_ADDRESS" (rePlusG Char.isAlphanum))
          (.cls fun c => c = '>'))))

/-- Rule 13, `<(?P<INSTANCE_CLS>[^\s]+) object at (?P<HEX_ADDRESS>[a-zA-Z0-9]+)>`. -/
def instance_re : RE :=
  .seq (.cls fun c => c = '<')
    (.seq (.grp "INSTANCE_CLS" (rePlusG fun c => !(isSpaceChar c)))
      (.seq (lit " object at ".toList)
        (.seq (.grp "HEX_ADDRESS" (rePlusG Char.isAlphanum))
          (.cls fun c => c = '>'))))

/-- Rule 14, `<class '(?P<CLASS>[\w\.]+)'>`. -/
def class_re : RE :=
  .seq (lit "<class \x27".toList)
    (.seq (.grp "CLASS" (rePlusG fun c => isWordChar c || c = '.'))
      (lit "\x27>".toList))

/-- Rule 15, `<module '(?P<MODULE>[^\s]+)'`. -/
def module_re : RE :=
  .seq (lit "<module \x27".toList)
    (.seq (.grp "MODULE" (rePlusG fun c => !(isSpaceChar c)))
      (.cls fun c => c = '\x27'))

/-- Rule 16, `from '(?P<MODULE_FROM>[^\s]+)'>`. -/
def module_from_re : RE :=
  .seq (lit "from \x27".toList)
    (.seq (.grp "MODULE_FROM" (rePlusG fun c => !(isSpaceChar c)))
      (lit "\x27>".toList))

/- ### Rule 11, the timestamp rule

`^\[(?P<HOUR>2[0-3]|[01][0-9])\:(?P<MINUTE>[0-5][0-9])\:(?P<SECOND>[0-5][0-9])\]`
is anchored with `^` and built from fixed-width pieces, so under `re.finditer`
it can only ever match once, at position 0; it is transcribed directly as a
match on the first ten characters of the line. -/

/-- The alternation `2[0-3]|[01][0-9]` on the two hour digits, first
alternative first. -/
def hourOk (c1 c2 : Char) : Bool :=
  (c1 = '2' && ('0' ≤ c2 && c2 ≤ '3')) ||
  ((c1 = '0' || c1 = '1') && ('0' ≤ c2 && c2 ≤ '9'))

/-- The class pair `[0-5][0-9]` on two minute or second digits. -/
def sexagOk (c1 c2 : Char) : Bool :=
  ('0' ≤ c1 && c1 ≤ '5') && ('0' ≤ c2 && c2 ≤ '9')

/-- The spans of the timestamp rule: when the line starts with a bracketed
`HH:MM:SS` whose components pass the digit classes, the three named groups
capture the digit pairs at positions 1-2, 4-5 and 7-8; otherwise the rule
produces nothing. -/
def tsSpans : List Char → List (String × Nat × Nat)
  | '[' :: h1 :: h2 :: ':' :: m1 :: m2 :: ':' :: s1 :: s2 :: ']' :: _ =>
    if hourOk h1 h2 && sexagOk m1 m2 && sexagOk s1 s2 then
      [("HOUR", 1, 3), ("MINUTE", 4, 6), ("SECOND", 7, 9)]
    else []
  | _ => []

/-- All spans the highlighter appends to a line, rule by rule in source
order. -/
def highlight_spans (s : List Char) : List (String × Nat × Nat) :=
  patternSpans constant_re s ++ patternSpans str_re s ++ patternSpans number_re s ++
  patternSpans true_re s ++ patternSpans false_re s ++ patternSpans none_re s ++
  patternSpans enum_re s ++ patternSpans dataclass_re s ++ patternSpans dict_key_re s ++
  patternSpans punctuation_re s ++ tsSpans s ++ patternSpans function_re s ++
  patternSpans instance_re s ++ patternSpans class_re s ++ patternSpans module_re s ++
  patternSpans module_from_re s

/- ### The theme (config.py) and the style names the highlighter produces -/

/-- The names of the named capture groups of a pattern, in the order they
appear in it. -/
def groupNames : RE → List String
  | .grp nm a => nm :: groupNames a
  | .seq a b => groupNames a ++ groupNames b
  | .alt a b => groupNames a ++ groupNames b
  | .opt a => groupNames a
  | _ => []

/-- Every tag name appearing as a named capture group in any highlighter
rule, rule by rule (the timestamp rule contributes HOUR, MINUTE and
SECOND). -/
def highlighter_tags : List String :=
  groupNames constant_re ++ groupNames str_re ++ groupNames number_re ++
  groupNames true_re ++ groupNames false_re ++ groupNames none_re ++
  groupNames enum_re ++ groupNames dataclass_re ++ groupNames dict_key_re ++
  groupNames punctuation_re ++ ["HOUR", "MINUTE", "SECOND"] ++
  groupNames function_re ++ groupNames instance_re ++ groupNames class_re ++
  groupNames module_re ++ groupNames module_from_re

/-- The style prefix the highlighter uses.  The class assigns `base_stype`
(a misspelling), so the `base_style` attribute that `RegexHighlighter.highlight`
reads keeps its inherited default, the empty string. -/
def base_style : String := ""

/-- The style name `highlight_regex` produces for a captured group: the style
prefix followed by the group name. -/
def style_name (g : String) : String := base_style ++ g

/-- The style mapping of `DEFAULT_THEME` (config.py lines 10-33). -/
def theme_styles : List (String × String) :=
  [("CONSTANT", "#ff9b54"),
   ("STR", "sea_green2 bold"),
   ("NUMBER", "sky_blue1 bold"),
   ("TRUE", "#C5D86D bold"),
   ("FALSE", "#D8829D bold"),
   ("DICT_KEY", "#94a3b8 bold"),
   ("PUNCTUATION", "grey39"),
   ("ENUM", "#cdb4db"),
   ("NONE", "#ffbd00 bold"),
   ("DATACLASS_NAME", "#c77dff"),
   ("HOUR", "dark_slate_gray1"),
   ("MINUTE", "dark_slate_gray1"),
   ("SECOND", "dark_slate_gray1"),
   ("FUNCTION_NAME", "green1 bold"),
   ("INSTANCE_CLS", "medium_spring_green"),
   ("CLASS", "gold3 bold"),
   ("MODULE", "orange3"),
   ("MODULE_FROM", "orange3"),
   ("HEX_ADDRESS", "dodger_blue1")]

/- ### Concrete lines used by the claims -/

/-- The line `CONST_NAME = 'value'`. -/
def line_const : List Char := "CONST_NAME = \x27value\x27".toList

/-- The same line with one leading space, ` CONST_NAME = 'value'`. -/
def line_const_indented : List Char := " CONST_NAME = \x27value\x27".toList

/-- The line with a braced dictionary display around `'key': 1`. -/
def line_dict : List Char := "\x7b\x27key\x27: 1\x7d".toList

/-- The line `'12' 3 True`: a quoted string containing digits, then a number,
then a boolean. -/
def line_overlap : List Char := "\x2712\x27 3 True".toList

/-- The line `'abc' 42 True`: a quoted string without digit or boolean
tokens, then a number, then a boolean. -/
def line_disjoint : List Char := "\x27abc\x27 42 True".toList

/-- Whether two half-open spans share a character position. -/
def spansOverlap (a b : Nat × Nat) : Bool := a.1 < b.2 && b.1 < a.2

/-- The ASCII digit character of a value below ten, as `strftime` emits. -/
def digitChar (n : Nat) : Char := Char.ofNat (48 + n)

/-- A line beginning with the bracketed, zero-padded `[HH:MM:SS]` rendering
of the components `h`, `m`, `s`, followed by arbitrary text. -/
def mkTsLine (h m s : Nat) (rest : List Char) : List Char :=
  '[' :: digitChar (h / 10) :: digitChar (h % 10) ::
  ':' :: digitChar (m / 10) :: digitChar (m % 10) ::
  ':' :: digitChar (s / 10) :: digitChar (s % 10) :: ']' :: rest

/- ### Helper lemmas -/

/-- The Python test `v is False` holds exactly for the boolean `False`. -/
theorem pyIsFalse_iff (v : PyVal) : pyIsFalse v = true ↔ v = .pyBoolFalse := by
  cases v <;> simp [pyIsFalse]

/-- Dropping the last element of a list with one appended gives the list
back. -/
theorem dropLast_append_singleton (l : List PrettyIndentHook) (a : PrettyIndentHook) :
    (l ++ [a]).dropLast = l := by
  simp

/-- The hour alternation on two digit characters accepts exactly the values
up to 23. -/
theorem hourOk_digit :
    ∀ a b : Fin 10, hourOk (digitChar a.1) (digitChar b.1) = decide (10 * a.1 + b.1 ≤ 23) := by
  decide

/-- The `[0-5][0-9]` class pair on two digit characters accepts exactly the
values up to 59. -/
theorem sexagOk_digit :
    ∀ a b : Fin 10, sexagOk (digitChar a.1) (digitChar b.1) = decide (10 * a.1 + b.1 ≤ 59) := by
  decide

/- ### Claims about the print function -/

/-- Claim C1, counterexample: when the underlying console print raises, the
render-hook stack after the call is not the stack from before it (starting
from an empty stack, the pushed hook is still there), so the claim that the
hook is popped even on exception fails on the code. -/
theorem print_hook_leaks_on_failure :
    ¬ (result_hooks (print 4 true [] true ⟨[], []⟩) = []) := by
  decide

/-- Claim C1, amended: the indentation render hook pushed by `print` is
popped before the call ends whenever the underlying console print returns
normally, restoring the render-hook stack, so the indent and guideline
options do not persist beyond a successful call; but the source has no
`try`/`finally`, so when the console print raises, the pop is skipped and the
hook pushed by this call is still on the stack when the exception
propagates. -/
theorem print_hook_scoping (indent : Nat) (g : Bool) (content : List PyVal) (c : Console) :
    result_hooks (print indent g content false c) = c.render_hooks ∧
    result_hooks (print indent g content true c) = c.render_hooks ++ [⟨indent, g⟩] := by
  constructor
  · simp [print, console_print, push_render_hook, pop_render_hook, result_hooks]
  · simp [print, console_print, push_render_hook, result_hooks]

/- ### Claims about the status decorator -/

/-- Claim C2: for every wrapped function and arguments on which it raises,
the wrapper re-raises the same exception, never prints the exit message, and
every status context it entered is exited again (the `with` block guarantees
the teardown). -/
theorem run_as_status_propagates_failure {E α : Type}
    (func : List PyVal → Except E α) (args : List PyVal) (e : E)
    (h : func args = .error e) :
    (run_as_status func args).2 = .error e ∧
    StatusEv.exitMessagePrinted ∉ (run_as_status func args).1 ∧
    (StatusEv.statusEnter ∈ (run_as_status func args).1 →
      StatusEv.statusExit ∈ (run_as_status func args).1) := by
  simp only [run_as_status, withStatusBlock, h]
  split
  · simp [h]
  · simp

/-- Claim C2, witness at a function that always raises. -/
theorem run_as_status_propagates_failure_witness :
    (run_as_status (fun _ => (Except.error 7 : Except Nat Nat)) []).2 = Except.error 7 :=
  (run_as_status_propagates_failure (fun _ => (Except.error 7 : Except Nat Nat)) [] 7 rfl).1

/-- Claim C3: when the first positional argument carries a `_show_status`
attribute equal to `False`, the wrapper performs no display action at all and
returns exactly what the wrapped function returns on the same arguments. -/
theorem run_as_status_suppressed {E α : Type}
    (func : List PyVal → Except E α) (inst : PyVal) (rest : List PyVal)
    (h : getattr inst "_show_status" .pyBoolTrue = .pyBoolFalse) :
    run_as_status func (inst :: rest) = ([], func (inst :: rest)) := by
  simp [run_as_status, h, pyIsFalse]

/-- Claim C3, witness at an object whose `_show_status` attribute is `False`
and a function returning 42. -/
theorem run_as_status_suppressed_witness :
    run_as_status (fun _ => (Except.ok 42 : Except Nat Nat))
      [PyVal.pyObj [("_show_status", PyVal.pyBoolFalse)]] =
      ([], Except.ok 42) :=
  run_as_status_suppressed (fun _ => (Except.ok 42 : Except Nat Nat))
    (PyVal.pyObj [("_show_status", PyVal.pyBoolFalse)]) [] rfl

/-- Claim C10: the status display is suppressed exactly when there is a first
positional argument whose `_show_status` attribute is identically the boolean
`False`; with no positional arguments, a missing attribute, or any other
attribute value the indicator is shown (and the exit message is printed when
the call returns normally).  The Python identity test `is False` rejects the
falsy values `0`, `None` and the empty string. -/
theorem run_as_status_suppression_characterization {E α : Type}
    (func : List PyVal → Except E α) (args : List PyVal) :
    (StatusEv.statusEnter ∈ (run_as_status func args).1 ↔
      suppress_condition args = false) ∧
    (suppress_condition args = true ↔
      ∃ inst, args.head? = some inst ∧
        getattr inst "_show_status" .pyBoolTrue = .pyBoolFalse) ∧
    (∀ a : α, func args = .ok a → suppress_condition args = false →
      StatusEv.exitMessagePrinted ∈ (run_as_status func args).1) ∧
    pyIsFalse (.pyInt 0) = false ∧ pyIsFalse .pyNone = false ∧
    pyIsFalse (.pyStr "") = false ∧ pyIsFalse .pyBoolFalse = true := by
  refine ⟨?_, ?_, ?_, rfl, rfl, rfl, rfl⟩
  · cases args with
    | nil =>
      simp [run_as_status, suppress_condition, withStatusBlock, pyIsFalse]
      split <;> simp
    | cons inst rest =>
      simp only [run_as_status, suppress_condition, withStatusBlock]
      cases hc : pyIsFalse (getattr inst "_show_status" .pyBoolTrue) with
      | true => simp [hc]
      | false =>
        simp only [hc, Bool.false_eq_true, if_false]
        split <;> simp
  · cases args with
    | nil => simp [suppress_condition]
    | cons inst rest => simp [suppress_condition, pyIsFalse_iff]
  · intro a ha hs
    cases args with
    | nil =>
      simp only [run_as_status, withStatusBlock, pyIsFalse, if_false, ha]
      simp
    | cons inst rest =>
      simp only [suppress_condition] at hs
      simp only [run_as_status, withStatusBlock, hs, Bool.false_eq_true, if_false, ha]
      simp

/-- Claim C10, witness: with no positional arguments and a normal return the
exit message is printed. -/
theorem run_as_status_suppression_characterization_witness :
    StatusEv.exitMessagePrinted ∈
      (run_as_status (fun _ => (Except.ok 0 : Except Nat Nat)) []).1 :=
  (run_as_status_suppression_characterization
    (fun _ => (Except.ok 0 : Except Nat Nat)) []).2.2.1 0 rfl rfl

/- ### Claims about the highlighter -/

/-- Claim C4, counterexample: on the line `CONST_NAME = 'value'` the
highlighter assigns no CONSTANT span at all, because the CONSTANT rule
`(\s[A-Z_]*(?=[\s,]))` demands a whitespace character before the capitals and
`CONST_NAME` stands at the very start of the line (followed by a space, not a
comma, so the lookahead cannot rescue it either). -/
theorem constant_not_tagged_at_line_start :
    ((highlight_spans line_const).any fun p => p.1 == "CONSTANT") = false := by
  decide

/-- Claim C4, amended: on `CONST_NAME = 'value'` the span `'value'` is tagged
STR and nothing is tagged DICT_KEY, as claimed; but `CONST_NAME` receives no
CONSTANT tag, since the CONSTANT rule requires a preceding whitespace
character.  With a leading space (` CONST_NAME = 'value'`) the rule fires,
capturing that whitespace together with `CONST_NAME`. -/
theorem const_line_highlighting :
    ("STR", 13, 20) ∈ highlight_spans line_const ∧
    ((highlight_spans line_const).any fun p => p.1 == "DICT_KEY") = false ∧
    ((highlight_spans line_const).any fun p => p.1 == "CONSTANT") = false ∧
    ("CONSTANT", 0, 11) ∈ highlight_spans line_const_indented := by
  refine ⟨by decide, by decide, by decide, by decide⟩

/-- Claim C5: on the line with `'key': 1` inside braces, the single-quoted
key followed by a colon and space is tagged DICT_KEY (positions 1 to 5) and
the `1` is tagged NUMBER. -/
theorem dict_line_highlighting :
    ("DICT_KEY", 1, 6) ∈ highlight_spans line_dict ∧
    ("NUMBER", 8, 9) ∈ highlight_spans line_dict := by
  refine ⟨by decide, by decide⟩

/-- Claim C6, counterexample: the line `'12' 3 True` contains a quoted
string, then a number, then `True`, and the highlighter tags them STR, NUMBER
and TRUE; but the NUMBER rule also fires on the digits inside the string
literal, so the STR span (0,4) and a NUMBER span (1,3) overlap, and positions
1 and 2 receive both tags, refuting the pairwise non-overlap. -/
theorem str_number_spans_overlap :
    ("STR", 0, 4) ∈ highlight_spans line_overlap ∧
    ("NUMBER", 1, 3) ∈ highlight_spans line_overlap ∧
    ("TRUE", 7, 11) ∈ highlight_spans line_overlap ∧
    spansOverlap (0, 4) (1, 3) = true := by
  refine ⟨by decide, by decide, by decide, by decide⟩

/-- Claim C6, amended: on a line with a quoted string, then a number, then a
boolean, the three tokens are tagged STR, NUMBER and TRUE respectively; the
full-token spans are pairwise non-overlapping when the string literal itself
contains no numeric or boolean token (as on `'abc' 42 True`), but in general
rules also fire inside the string literal, so a character position can carry
more than one of these tags. -/
theorem disjoint_line_highlighting :
    ("STR", 0, 5) ∈ highlight_spans line_disjoint ∧
    ("NUMBER", 6, 8) ∈ highlight_spans line_disjoint ∧
    ("TRUE", 9, 13) ∈ highlight_spans line_disjoint ∧
    spansOverlap (0, 5) (6, 8) = false ∧
    spansOverlap (0, 5) (9, 13) = false ∧
    spansOverlap (6, 8) (9, 13) = false := by
  refine ⟨by decide, by decide, by decide, by decide, by decide, by decide⟩

/-- Claim C7: in `print`, every positional argument that is a plain string is
markup-escaped and every other argument is passed through unchanged; the
escape renders markup-like sequences literally, so the escaped `[bold]`
parses to literal text with no style tag, while the unescaped `[bold]` would
parse as a style tag. -/
theorem print_escapes_plain_strings :
    (∀ (s : String) (vs : List PyVal),
      to_print (.pyStr s :: vs) = .pyStr (markup_escape s) :: to_print vs) ∧
    (∀ (v : PyVal) (vs : List PyVal), (∀ s, v ≠ .pyStr s) →
      to_print (v :: vs) = v :: to_print vs) ∧
    markup_has_tag (parse_markup (markup_escape "[bold]")) = false ∧
    markup_plain (parse_markup (markup_escape "[bold]")) = "[bold]".toList ∧
    markup_has_tag (parse_markup "[bold]") = true := by
  refine ⟨fun s vs => rfl, fun v vs h => ?_, by decide, by decide, by decide⟩
  cases v with
  | pyStr s => exact absurd rfl (h s)
  | pyBoolFalse => rfl
  | pyBoolTrue => rfl
  | pyNone => rfl
  | pyInt n => rfl
  | pyObj attrs => rfl

/-- Claim C7, witness: a non-string argument passes through `to_print`
unchanged. -/
theorem print_escapes_plain_strings_witness :
    to_print [PyVal.pyNone] = [PyVal.pyNone] :=
  print_escapes_plain_strings.2.1 PyVal.pyNone [] fun _ hs => PyVal.noConfusion hs

/-- Claim C8: for a line beginning with a bracketed two-digit timestamp, the
timestamp rule assigns the HOUR, MINUTE and SECOND tags to the three digit
pairs exactly when the hour is at most 23 and the minute and second at most
59; and every span this rule ever produces lies within the first ten
character positions of the line, so a bracketed time standing anywhere but at
the line start receives no tags from it. -/
theorem timestamp_rule_characterization (h m s : Nat) (rest : List Char)
    (hh : h < 100) (hm : m < 100) (hs : s < 100) :
    tsSpans (mkTsLine h m s rest) =
      (if h ≤ 23 ∧ m ≤ 59 ∧ s ≤ 59 then
        [("HOUR", 1, 3), ("MINUTE", 4, 6), ("SECOND", 7, 9)]
      else []) ∧
    (∀ (line : List Char) (p : String × Nat × Nat),
      p ∈ tsSpans line → 1 ≤ p.2.1 ∧ p.2.2 ≤ 9) := by
  constructor
  · have e0 : tsSpans (mkTsLine h m s rest) =
        if hourOk (digitChar (h / 10)) (digitChar (h % 10)) &&
           sexagOk (digitChar (m / 10)) (digitChar (m % 10)) &&
           sexagOk (digitChar (s / 10)) (digitChar (s % 10)) then
          [("HOUR", 1, 3), ("MINUTE", 4, 6), ("SECOND", 7, 9)]
        else [] := rfl
    have e1 : hourOk (digitChar (h / 10)) (digitChar (h % 10)) =
        decide (10 * (h / 10) + h % 10 ≤ 23) :=
      hourOk_digit ⟨h / 10, by omega⟩ ⟨h % 10, by omega⟩
    have e2 : sexagOk (digitChar (m / 10)) (digitChar (m % 10)) =
        decide (10 * (m / 10) + m % 10 ≤ 59) :=
      sexagOk_digit ⟨m / 10, by omega⟩ ⟨m % 10, by omega⟩
    have e3 : sexagOk (digitChar (s / 10)) (digitChar (s % 10)) =
        decide (10 * (s / 10) + s % 10 ≤ 59) :=
      sexagOk_digit ⟨s / 10, by omega⟩ ⟨s % 10, by omega⟩
    rw [show 10 * (h / 10) + h % 10 = h from by omega] at e1
    rw [show 10 * (m / 10) + m % 10 = m from by omega] at e2
    rw [show 10 * (s / 10) + s % 10 = s from by omega] at e3
    rw [e0, e1, e2, e3]
    by_cases h1 : h ≤ 23 <;> by_cases h2 : m ≤ 59 <;> by_cases h3 : s ≤ 59 <;>
      simp [h1, h2, h3]
  · intro line p hp
    unfold tsSpans at hp
    split at hp
    · split at hp
      · simp only [List.mem_cons, List.not_mem_nil, or_false] at hp
        rcases hp with rfl | rfl | rfl <;> exact ⟨by decide, by decide⟩
      · exact absurd hp (List.not_mem_nil p)
    · exact absurd hp (List.not_mem_nil p)

/-- Claim C8, witness at the timestamp 12:34:56 on a bare line. -/
theorem timestamp_rule_characterization_witness :
    tsSpans (mkTsLine 12 34 56 []) =
      [("HOUR", 1, 3), ("MINUTE", 4, 6), ("SECOND", 7, 9)] :=
  ((timestamp_rule_characterization 12 34 56 []
    (by decide) (by decide) (by decide)).1).trans (by decide)

/-- Claim C9: every tag name occurring as a named capture group of a
highlighter rule has an entry in the theme style mapping under exactly the
style name the highlighter produces for it (the empty `base_style` followed
by the group name). -/
theorem theme_covers_highlighter_tags :
    (highlighter_tags.all fun t => (theme_styles.lookup (style_name t)).isSome) = true := by
  decide

end ThemedPrint
